import Mathlib

/-!
Shallow embedding of the dropout-detection engine of `process.py`
(bragr/gaps).

Modelling conventions:
* a raw JSON record (`dict`) becomes the structure `Update` whose fields
  are `Option`-valued — `none` models an absent key;
* `datetime` instants become rationals (seconds); `datetime` subtraction
  and `timedelta` comparison become rational subtraction and `≤`;
* Python exceptions (`KeyError` from `d[k]`, `TypeError` from
  `None >= 60.0`, `ValueError` from `MessageType(...)`) become the error
  type `Err` threaded through `Except`;
* Python truthiness on numbers (`not update.get('lat')`) is `qFalsy`:
  absent or exactly `0`; truthiness on the optional string field `r` is
  "present and non-empty";
* the floating-point trigonometry of `Dropout.great_circle` is modelled
  over the real numbers.
-/

namespace Gaps

/-- Python exception kinds that the modelled code can raise. -/
inductive Err
  | keyError
  | typeError
  | valueError
deriving DecidableEq

/-- Decidable equality of `Except` results, so that concrete runs can be
checked by `decide`. -/
instance exceptDecEq {ε α : Type} [DecidableEq ε] [DecidableEq α] :
    DecidableEq (Except ε α) := fun x y =>
  match x, y with
  | .error a, .error b => decidable_of_iff (a = b) (by simp)
  | .error _, .ok _ => isFalse (by simp)
  | .ok _, .error _ => isFalse (by simp)
  | .ok a, .ok b => decidable_of_iff (a = b) (by simp)

/-- An altitude value: a number, or the literal `"ground"` marker. -/
inductive Alt
  | num (v : ℚ)
  | ground
deriving DecidableEq

/-- `class MessageType(enum.Enum)` — the closed set of message kinds
(process.py lines 22–34). -/
inductive MessageType
  | ADSB_ICAO
  | ADSB_ICAO_NT
  | ADSR_ICAO
  | TISB_ICAO
  | ADSC
  | MLAT
  | OTHER
  | MODE_S
  | ADSB_OTHER
  | ADSR_OTHER
  | TISB_OTHER
  | TISB_TRACKFILE
deriving DecidableEq

/-- `MessageType(value)`: the enum lookup, `none` models the `ValueError`
raised on a string outside the closed enumeration. -/
def MessageType.ofString (s : String) : Option MessageType :=
  if s = "adsb_icao" then some .ADSB_ICAO
  else if s = "adsb_icao_nt" then some .ADSB_ICAO_NT
  else if s = "adsr_icao" then some .ADSR_ICAO
  else if s = "tisb_icao" then some .TISB_ICAO
  else if s = "adsc" then some .ADSC
  else if s = "mlat" then some .MLAT
  else if s = "other" then some .OTHER
  else if s = "mode_s" then some .MODE_S
  else if s = "adsb_other" then some .ADSB_OTHER
  else if s = "adsr_other" then some .ADSR_OTHER
  else if s = "tisb_other" then some .TISB_OTHER
  else if s = "tisb_trackfile" then some .TISB_TRACKFILE
  else none

/-- One raw aircraft record, the `update: dict` of the source.  Each field
is `none` when the corresponding key is absent from the dict. -/
structure Update where
  hex : Option String := none
  lat : Option ℚ := none
  lon : Option ℚ := none
  alt_baro : Option Alt := none
  alt_geom : Option Alt := none
  flight : Option String := none
  r : Option String := none
  t : Option String := none
  dbFlags : Option Nat := none
  type : Option String := none
  lastPosition : Option Bool := none
  seen : Option ℚ := none
deriving DecidableEq

/-- Python truthiness test for an optional number: `not update.get(k)` is
true when the key is absent or its value is exactly `0`. -/
def qFalsy : Option ℚ → Bool
  | none => true
  | some x => decide (x = 0)

/-- `LAST_POS_THRESHOLD = 60.0` (process.py line 15); the same constant,
via `LAST_POS_DELTA`, is the dropout gap threshold. -/
def LAST_POS_THRESHOLD : ℚ := 60

/-- `class Position` (process.py lines 37–44): one validated observation. -/
structure Position where
  time : ℚ
  lat : ℚ
  long : ℚ
  alt : Option Alt
  type : MessageType
deriving DecidableEq

/-- `update.get('alt_baro', update.get('alt_geom'))` — presence-based
defaulting, not truthiness-based. -/
def altOf (u : Update) : Option Alt :=
  match u.alt_baro with
  | some a => some a
  | none => u.alt_geom

/-- `Position.__init__(update, update_time)`: reads `update['lat']`,
`update['lon']` (a `KeyError` when absent), resolves altitude, and parses
`MessageType(update['type'])` (a `KeyError` when `'type'` is absent, a
`ValueError` when the string is outside the enumeration). -/
def Position.make (u : Update) (tm : ℚ) : Except Err Position :=
  match u.lat with
  | none => .error .keyError
  | some la =>
    match u.lon with
    | none => .error .keyError
    | some lo =>
      match u.type with
      | none => .error .keyError
      | some ty =>
        match MessageType.ofString ty with
        | none => .error .valueError
        | some mt => .ok { time := tm, lat := la, long := lo, alt := altOf u, type := mt }

/-- `class Dropout` (process.py lines 50–59): a presumed coverage gap. -/
structure Dropout where
  hex : String
  start : Position
  end_ : Position
deriving DecidableEq

/-- `class Flight` (process.py lines 85–103): holds the single most
recent valid `Position`. -/
structure Flight where
  last_position : Option Position
deriving DecidableEq

/-- `Flight.process_update(update, update_time)` (process.py lines 92–103).
Returns the updated flight together with the optional `Dropout`; an
exception raised inside the Python body becomes an `Err`. -/
def Flight.process_update (f : Flight) (u : Update) (tm : ℚ) :
    Except Err (Flight × Option Dropout) :=
  if qFalsy u.lat || qFalsy u.lon then
    .ok (f, none)
  else
    match Position.make u tm with
    | .error e => .error e
    | .ok newPos =>
      match f.last_position with
      | none => .ok ({ last_position := some newPos }, none)
      | some prev =>
        if tm - prev.time ≥ LAST_POS_THRESHOLD then
          match u.hex with
          | none => .error .keyError
          | some hx =>
            .ok ({ last_position := some newPos },
                 some { hex := hx, start := prev, end_ := newPos })
        else
          .ok ({ last_position := some newPos }, none)

/-- `Flight.__init__(update, update_time)` (process.py lines 88–90): start
from `last_position = None` and run `process_update`, discarding any
returned dropout (none is possible) but propagating exceptions. -/
def Flight.init (u : Update) (tm : ℚ) : Except Err Flight :=
  match Flight.process_update { last_position := none } u tm with
  | .error e => .error e
  | .ok (f, _) => .ok f

/-- Python truthiness of the optional registration string:
`self.registration if self.registration else self.hex`. -/
def regOrHex (reg : Option String) (hx : String) : String :=
  match reg with
  | some s => if s = "" then hx else s
  | none => hx

/-- `class Aircraft` (process.py lines 106–148): one airframe.  The source
field `_dbFlags` is named `dbFlags` here. -/
structure Aircraft where
  hex : String
  registration : Option String
  type : Option String
  dbFlags : Nat
  current_flight : String
  flight : Flight
deriving DecidableEq

/-- `Aircraft.__init__(update, update_time)` (process.py lines 109–115):
`update['hex']` raises a `KeyError` when absent; `dbFlags` defaults to 0;
`current_flight` defaults to the registration when truthy, else the hex;
the first `Flight` is built from this update. -/
def Aircraft.init (u : Update) (tm : ℚ) : Except Err Aircraft :=
  match u.hex with
  | none => .error .keyError
  | some hx =>
    match Flight.init u tm with
    | .error e => .error e
    | .ok f =>
      .ok { hex := hx
            registration := u.r
            type := u.t
            dbFlags := u.dbFlags.getD 0
            current_flight := u.flight.getD (regOrHex u.r hx)
            flight := f }

/-- `Aircraft.process_update(update, update_time)` (process.py lines
117–129): refresh registration and type from the record when present, and
either start a new `Flight` on a callsign change (returning no dropout) or
forward to the current flight. -/
def Aircraft.process_update (a : Aircraft) (u : Update) (tm : ℚ) :
    Except Err (Aircraft × Option Dropout) :=
  if a.current_flight ≠ u.flight.getD a.current_flight then
    match Flight.init u tm with
    | .error e => .error e
    | .ok f =>
      .ok ({ a with registration := (match u.r with | some v => some v | none => a.registration)
                    type := (match u.t with | some v => some v | none => a.type)
                    current_flight := u.flight.getD a.current_flight
                    flight := f }, none)
  else
    match a.flight.process_update u tm with
    | .error e => .error e
    | .ok (f, d) =>
      .ok ({ a with registration := (match u.r with | some v => some v | none => a.registration)
                    type := (match u.t with | some v => some v | none => a.type)
                    flight := f }, d)

/-- `Aircraft.military` (process.py lines 131–133): `bool(_dbFlags & 0b0001)`. -/
def Aircraft.military (a : Aircraft) : Bool :=
  decide (a.dbFlags &&& 1 ≠ 0)

/-- `Aircraft.interesting`: `bool(_dbFlags & 0b0010)`. -/
def Aircraft.interesting (a : Aircraft) : Bool :=
  decide (a.dbFlags &&& 2 ≠ 0)

/-- `Aircraft.pia`: `bool(_dbFlags & 0b0100)`. -/
def Aircraft.pia (a : Aircraft) : Bool :=
  decide (a.dbFlags &&& 4 ≠ 0)

/-- `Aircraft.ladd`: `bool(_dbFlags & 0b1000)`. -/
def Aircraft.ladd (a : Aircraft) : Bool :=
  decide (a.dbFlags &&& 8 ≠ 0)

/-- `class World` (process.py lines 151–168): the hex → Aircraft dict is
modelled as an association list with unique keys, the dropout list as an
append-only list. -/
structure World where
  aircraft : List (String × Aircraft)
  dropouts : List Dropout
deriving DecidableEq

/-- `World.__init__`: empty registry, empty dropout log. -/
def World.empty : World := { aircraft := [], dropouts := [] }

/-- Dict lookup `self.aircraft.get(hex, None)`. -/
def lookupKey (hx : String) : List (String × Aircraft) → Option Aircraft
  | [] => none
  | (k, a) :: rest => if k = hx then some a else lookupKey hx rest

/-- Dict assignment `self.aircraft[hex] = ...`: replace the value at an
existing key, or append the binding. -/
def setKey (hx : String) (a : Aircraft) : List (String × Aircraft) → List (String × Aircraft)
  | [] => [(hx, a)]
  | (k, v) :: rest => if k = hx then (k, a) :: rest else (k, v) :: setKey hx a rest

/-- `World.process_aircraft(aircraft_update, update_time)` (process.py
lines 157–168).  `aircraft_update['hex']` is read first (a `KeyError`
when absent); the staleness filter short-circuits on a truthy
`lastPosition`, and comparing an absent `seen` (`None`) against the
numeric threshold raises a `TypeError`. -/
def World.process_aircraft (w : World) (u : Update) (tm : ℚ) : Except Err World :=
  match u.hex with
  | none => .error .keyError
  | some hx =>
    if u.lastPosition.getD false then
      .ok w
    else
      match u.seen with
      | none => .error .typeError
      | some s =>
        if s ≥ LAST_POS_THRESHOLD then
          .ok w
        else
          match lookupKey hx w.aircraft with
          | some a =>
            match a.process_update u tm with
            | .error e => .error e
            | .ok (a2, d) =>
              .ok { aircraft := setKey hx a2 w.aircraft
                    dropouts := w.dropouts ++ d.toList }
          | none =>
            match Aircraft.init u tm with
            | .error e => .error e
            | .ok a => .ok { aircraft := (hx, a) :: w.aircraft, dropouts := w.dropouts }

/-- The ingestion driver's fold: deliver a sequence of
(update, observation-time) records to the world, one at a time. -/
def runWorld (w : World) : List (Update × ℚ) → Except Err World
  | [] => .ok w
  | (u, tm) :: rest =>
    match w.process_aircraft u tm with
    | .error e => .error e
    | .ok w2 => runWorld w2 rest

/-! ### Spec-side characterization of dropout counting

The definitions below follow the words of spec.md §8: "`World.dropouts`
length equals the number of consecutive valid-position pairs within any
single Flight whose time gap is ≥ threshold; gaps spanning a callsign
change never count."  They are the specification side of the refinement
claim C1 and are compared against the embedded code above. -/

/-- Spec side: this update is a valid-position update (usable lat and lon)
delivered to a Flight whose previous accepted valid fix is ≥ threshold
seconds older — i.e. the two fixes form a consecutive valid-position pair
within a single Flight whose time gap is at least the threshold. -/
def flightGap (f : Flight) (u : Update) (tm : ℚ) : Bool :=
  !qFalsy u.lat && !qFalsy u.lon &&
    match f.last_position with
    | none => false
    | some prev => decide (tm - prev.time ≥ LAST_POS_THRESHOLD)

/-- Spec side: the delivered record is accepted (not filtered as stale),
reaches the existing Flight of an already-known aircraft without a
callsign change (a changed callsign spans two Flights and never counts),
and closes a within-Flight valid-position pair with gap ≥ threshold. -/
def specGapHit (w : World) (u : Update) (tm : ℚ) : Bool :=
  match u.hex with
  | none => false
  | some hx =>
    if u.lastPosition.getD false then false
    else
      match u.seen with
      | none => false
      | some s =>
        if s ≥ LAST_POS_THRESHOLD then false
        else
          match lookupKey hx w.aircraft with
          | none => false
          | some a =>
            decide (u.flight.getD a.current_flight = a.current_flight) &&
              flightGap a.flight u tm

/-- Spec side: the number of within-Flight threshold-exceeding
valid-position pairs over a delivered sequence of records. -/
def specGapCount (w : World) : List (Update × ℚ) → Nat
  | [] => 0
  | (u, tm) :: rest =>
    (if specGapHit w u tm then 1 else 0) +
      match w.process_aircraft u tm with
      | .error _ => 0
      | .ok w2 => specGapCount w2 rest

/-! ### Great-circle distance (process.py lines 61–78), over ℝ -/

/-- `MEAN_EARTH_RADIUS_METERS = 6371008.7714` (process.py line 17). -/
noncomputable def MEAN_EARTH_RADIUS_METERS : ℝ := 6371008.7714

/-- `math.radians(x)`: degrees to radians. -/
noncomputable def radians (deg : ℚ) : ℝ := (deg : ℝ) * Real.pi / 180

/-- The clamp of the dot-product argument (process.py lines 73–76):
`if x > 1.0: x = 1.0 elif x < -1.0: x = -1.0`. -/
noncomputable def clampUnit (x : ℝ) : ℝ :=
  if x > 1 then 1 else if x < -1 then -1 else x

/-- The dot-product argument of `Dropout.great_circle` (process.py lines
67–72): `sin(lat1)·sin(lat2) + cos(lat1)·cos(lat2)·cos(long_diff)` where
`long_diff` is the order-independent absolute longitude difference. -/
noncomputable def gcArg (p q : Position) : ℝ :=
  Real.sin (radians p.lat) * Real.sin (radians q.lat) +
    Real.cos (radians p.lat) * Real.cos (radians q.lat) *
      Real.cos (if radians p.long > radians q.long
                then radians p.long - radians q.long
                else radians q.long - radians p.long)

/-- `Dropout.great_circle(self)` (process.py lines 61–78): the central
angle `acos` of the clamped dot product, scaled by the mean Earth
radius. -/
noncomputable def Dropout.great_circle (d : Dropout) : ℝ :=
  MEAN_EARTH_RADIUS_METERS * Real.arccos (clampUnit (gcArg d.start d.end_))

/-! ### Concrete sample records used to instantiate the theorems -/

/-- A well-formed fresh record for hex `abc123` on flight `AB1`. -/
def demoUpdate : Update :=
  { hex := some "abc123", lat := some 10, lon := some 20, flight := some "AB1",
    type := some "adsb_icao", seen := some 0 }

/-- The position `demoUpdate` yields at observation time 0. -/
def demoP0 : Position :=
  { time := 0, lat := 10, long := 20, alt := none, type := .ADSB_ICAO }

/-- The position `demoUpdate` yields at observation time 60. -/
def demoP60 : Position :=
  { time := 60, lat := 10, long := 20, alt := none, type := .ADSB_ICAO }

/-- The position `demoUpdate` yields at observation time 90. -/
def demoP90 : Position :=
  { time := 90, lat := 10, long := 20, alt := none, type := .ADSB_ICAO }

/-- A flight whose last accepted fix is `demoP0`. -/
def demoFlight : Flight := { last_position := some demoP0 }

/-- The aircraft created by `Aircraft.init demoUpdate 0` (with
`dbFlags := some 5` merged into the record). -/
def demoAc5 : Aircraft :=
  { hex := "abc123", registration := none, type := none, dbFlags := 5,
    current_flight := "AB1", flight := demoFlight }

/-- The world holding exactly `demoAc5`. -/
def demoWorld : World :=
  { aircraft := [("abc123", demoAc5)], dropouts := [] }

/-- A two-record delivery for one aircraft with a 90-second gap. -/
def demoSteps : List (Update × ℚ) := [(demoUpdate, 0), (demoUpdate, 90)]

/-- The world `runWorld World.empty demoSteps` produces: one aircraft,
one dropout spanning the 90-second gap. -/
def demoFinal : World :=
  { aircraft :=
      [("abc123",
        { hex := "abc123", registration := none, type := none, dbFlags := 0,
          current_flight := "AB1", flight := { last_position := some demoP90 } })],
    dropouts := [{ hex := "abc123", start := demoP0, end_ := demoP90 }] }

/-! ### Theorems -/

/-- A non-falsy optional rational is a present, non-zero value. -/
theorem qFalsy_eq_false {o : Option ℚ} (h : qFalsy o = false) :
    ∃ x, o = some x ∧ x ≠ 0 := by
  cases o with
  | none => simp [qFalsy] at h
  | some x => exact ⟨x, rfl, by simpa [qFalsy] using h⟩

/-- Claim C5: a call to `Flight.process_update` whose record lacks a lat
or lon field, or reports exactly 0 for either (the falsy check), is a
complete no-op: the flight is unchanged and no dropout is returned. -/
theorem claim_C5 (f : Flight) (u : Update) (tm : ℚ)
    (h : qFalsy u.lat = true ∨ qFalsy u.lon = true) :
    f.process_update u tm = .ok (f, none) := by
  unfold Flight.process_update
  rcases h with h | h <;> simp [h]

/-- Witness for C5 at the nominally valid coordinate lat=0, lon=0. -/
theorem claim_C5_witness :
    Flight.process_update { last_position := some demoP0 }
      { demoUpdate with lat := some 0, lon := some 0 } 90 =
      .ok ({ last_position := some demoP0 }, none) :=
  claim_C5 { last_position := some demoP0 }
    { demoUpdate with lat := some 0, lon := some 0 } 90 (Or.inl (by decide))

/-- Claim C4: a record with a truthy `lastPosition` marker, or with a
`seen` age at or above the 60-second threshold, is rejected by
`World.process_aircraft` with no state change at all — the returned world
is the input world, regardless of position validity. -/
theorem claim_C4 (w : World) (u : Update) (tm : ℚ) (hx : String)
    (hhex : u.hex = some hx)
    (h : u.lastPosition.getD false = true ∨
      ∃ s, u.seen = some s ∧ s ≥ LAST_POS_THRESHOLD) :
    w.process_aircraft u tm = .ok w := by
  unfold World.process_aircraft
  rw [hhex]
  rcases h with h | ⟨s, hs, hge⟩
  · simp [h]
  · by_cases hlp : u.lastPosition.getD false
    · simp [hlp]
    · simp [hlp, hs, hge]

/-- Witness for C4: a record with `seen = 61` against a one-aircraft
world is dropped entirely even though it carries a valid position. -/
theorem claim_C4_witness :
    World.process_aircraft demoWorld { demoUpdate with seen := some 61 } 30 =
      .ok demoWorld :=
  claim_C4 demoWorld { demoUpdate with seen := some 61 } 30 "abc123" rfl
    (Or.inr ⟨61, rfl, by decide⟩)

/-- Claim C10: a record whose `lastPosition` marker is absent or falsy
and which lacks a `seen` field makes `World.process_aircraft` raise a
`TypeError` (comparing `None` against the numeric threshold) instead of
filtering or processing the record; a truthy `lastPosition` bypasses the
`seen` comparison entirely. -/
theorem claim_C10 (w : World) (u : Update) (tm : ℚ) (hx : String)
    (hhex : u.hex = some hx) :
    (u.lastPosition.getD false = false → u.seen = none →
      w.process_aircraft u tm = .error .typeError) ∧
    (u.lastPosition.getD false = true → w.process_aircraft u tm = .ok w) := by
  unfold World.process_aircraft
  rw [hhex]
  constructor
  · intro h1 h2
    simp [h1, h2]
  · intro h1
    simp [h1]

/-- Witness for C10: a seen-less record raises the type error; the same
record with a truthy `lastPosition` is silently filtered instead. -/
theorem claim_C10_witness :
    World.process_aircraft demoWorld { demoUpdate with seen := none } 30 =
      .error .typeError ∧
    World.process_aircraft demoWorld
      { demoUpdate with seen := none, lastPosition := some true } 30 =
      .ok demoWorld :=
  ⟨(claim_C10 demoWorld { demoUpdate with seen := none } 30 "abc123" rfl).1 rfl rfl,
   (claim_C10 demoWorld
      { demoUpdate with seen := none, lastPosition := some true } 30 "abc123" rfl).2 rfl⟩

/-- Claim C2: for a call to `Flight.process_update` with a usable lat/lon
(whose `Position` construction succeeds): with a previous `last_position`
it returns `Dropout(hex, previous, new)` exactly when
`observation_time - previous.time ≥ 60` (at-threshold included), and
nothing when the elapsed time is below the threshold; with no previous
`last_position` (first valid fix) it returns nothing. -/
theorem claim_C2 (f : Flight) (u : Update) (tm : ℚ) (hx : String) (p : Position)
    (hhex : u.hex = some hx)
    (hlat : qFalsy u.lat = false) (hlon : qFalsy u.lon = false)
    (hpos : Position.make u tm = .ok p) :
    (∀ prev, f.last_position = some prev →
      f.process_update u tm =
        if tm - prev.time ≥ LAST_POS_THRESHOLD then
          .ok ({ last_position := some p },
               some { hex := hx, start := prev, end_ := p })
        else
          .ok ({ last_position := some p }, none)) ∧
    (f.last_position = none →
      f.process_update u tm = .ok ({ last_position := some p }, none)) := by
  unfold Flight.process_update
  rw [hlat, hlon, hpos]
  constructor
  · intro prev hprev
    rw [hprev]
    simp only [Bool.or_self, Bool.false_eq_true, if_false]
    split
    · rw [hhex]
    · rfl
  · intro hnone
    rw [hnone]
    simp

/-- Witness for C2: a gap of exactly 60 seconds counts as a dropout. -/
theorem claim_C2_witness :
    Flight.process_update demoFlight demoUpdate 60 =
      .ok ({ last_position := some demoP60 },
           some { hex := "abc123", start := demoP0, end_ := demoP60 }) := by
  have h := (claim_C2 demoFlight demoUpdate 60 "abc123" demoP60
    rfl rfl rfl (by decide)).1 demoP0 rfl
  rw [h, if_pos]
  show (60 : ℚ) - demoP0.time ≥ LAST_POS_THRESHOLD
  norm_num [demoP0, LAST_POS_THRESHOLD]

/-- Claim C3: a record whose flight label differs from `current_flight`
makes `Aircraft.process_update` replace the `Flight` with one seeded from
this record and return no dropout, regardless of the elapsed time since
the old flight's last fix; a record with no flight field never triggers a
flight change — the update is forwarded to the current flight. -/
theorem claim_C3 (a : Aircraft) (u : Update) (tm : ℚ) :
    (∀ l f, u.flight = some l → l ≠ a.current_flight → Flight.init u tm = .ok f →
      ∃ a2, a.process_update u tm = .ok (a2, none) ∧
        a2.current_flight = l ∧ a2.flight = f) ∧
    (u.flight = none → ∀ f2 d, a.flight.process_update u tm = .ok (f2, d) →
      ∃ a2, a.process_update u tm = .ok (a2, d) ∧
        a2.current_flight = a.current_flight ∧ a2.flight = f2) := by
  constructor
  · intro l f hfl hne hinit
    unfold Aircraft.process_update
    have hcond : a.current_flight ≠ u.flight.getD a.current_flight := by
      rw [hfl]
      exact fun h => hne (h.symm)
    rw [if_pos hcond, hinit]
    exact ⟨_, rfl, by simp [hfl], rfl⟩
  · intro hfl f2 d hproc
    unfold Aircraft.process_update
    have hcond : ¬a.current_flight ≠ u.flight.getD a.current_flight := by
      simp [hfl]
    rw [if_neg hcond, hproc]
    exact ⟨_, rfl, rfl, rfl⟩

/-- Witness for C3: a callsign change from AB1 to AB2 after a 120-second
gap yields a new flight and no dropout, while a record lacking the flight
field leaves `current_flight` untouched. -/
theorem claim_C3_witness :
    (∃ a2, demoAc5.process_update { demoUpdate with flight := some "AB2" } 120 =
        .ok (a2, none) ∧ a2.current_flight = "AB2" ∧
        a2.flight = { last_position := some { time := 120, lat := 10, long := 20,
                                              alt := none, type := .ADSB_ICAO } }) ∧
    (∃ a2, demoAc5.process_update { demoUpdate with flight := none, lat := none } 120 =
        .ok (a2, none) ∧ a2.current_flight = demoAc5.current_flight ∧
        a2.flight = demoAc5.flight) :=
  ⟨(claim_C3 demoAc5 { demoUpdate with flight := some "AB2" } 120).1 "AB2"
      { last_position := some { time := 120, lat := 10, long := 20,
                                alt := none, type := .ADSB_ICAO } }
      rfl (by decide) (by decide),
   (claim_C3 demoAc5 { demoUpdate with flight := none, lat := none } 120).2
      rfl demoAc5.flight none (by decide)⟩

/-- The four flag properties only read `dbFlags`. -/
theorem flags_congr {a b : Aircraft} (h : b.dbFlags = a.dbFlags) :
    b.military = a.military ∧ b.interesting = a.interesting ∧
      b.pia = a.pia ∧ b.ladd = a.ladd := by
  unfold Aircraft.military Aircraft.interesting Aircraft.pia Aircraft.ladd
  rw [h]
  exact ⟨rfl, rfl, rfl, rfl⟩

/-- Claim C9: `dbFlags` is set only at construction, from the first
record (defaulting to 0 when absent), and no `process_update` call ever
modifies it, so the derived properties military, interesting, pia and
ladd stay constant even when a later record carries different flags. -/
theorem claim_C9 :
    (∀ (u : Update) (tm : ℚ) (a : Aircraft),
      Aircraft.init u tm = .ok a → a.dbFlags = u.dbFlags.getD 0) ∧
    (∀ (a : Aircraft) (u : Update) (tm : ℚ) (a2 : Aircraft) (d : Option Dropout),
      a.process_update u tm = .ok (a2, d) →
      a2.dbFlags = a.dbFlags ∧ a2.military = a.military ∧
        a2.interesting = a.interesting ∧ a2.pia = a.pia ∧ a2.ladd = a.ladd) := by
  constructor
  · intro u tm a h
    unfold Aircraft.init at h
    cases hhex : u.hex with
    | none => rw [hhex] at h; simp at h
    | some hx =>
      rw [hhex] at h
      cases hi : Flight.init u tm with
      | error e => rw [hi] at h; simp at h
      | ok f =>
        rw [hi] at h
        cases h
        rfl
  · intro a u tm a2 d h
    have hdb : a2.dbFlags = a.dbFlags := by
      unfold Aircraft.process_update at h
      by_cases hc : a.current_flight ≠ u.flight.getD a.current_flight
      · rw [if_pos hc] at h
        cases hi : Flight.init u tm with
        | error e => rw [hi] at h; simp at h
        | ok f => rw [hi] at h; cases h; rfl
      · rw [if_neg hc] at h
        cases hp : a.flight.process_update u tm with
        | error e => rw [hp] at h; simp at h
        | ok fd => obtain ⟨f2, d2⟩ := fd; rw [hp] at h; cases h; rfl
    exact ⟨hdb, flags_congr hdb⟩

/-- Witness for C9: an aircraft built with `dbFlags = 5` keeps value 5
and all four flags across an update that reports `dbFlags = 9`. -/
theorem claim_C9_witness :
    demoAc5.dbFlags = (({ demoUpdate with dbFlags := some 5 } : Update).dbFlags.getD 0) ∧
    ({ demoAc5 with registration := some "N123" } : Aircraft).dbFlags = demoAc5.dbFlags ∧
      ({ demoAc5 with registration := some "N123" } : Aircraft).military = demoAc5.military ∧
      ({ demoAc5 with registration := some "N123" } : Aircraft).interesting = demoAc5.interesting ∧
      ({ demoAc5 with registration := some "N123" } : Aircraft).pia = demoAc5.pia ∧
      ({ demoAc5 with registration := some "N123" } : Aircraft).ladd = demoAc5.ladd :=
  ⟨claim_C9.1 { demoUpdate with dbFlags := some 5 } 0 demoAc5 (by decide),
   claim_C9.2 demoAc5 { demoUpdate with dbFlags := some 9, lat := none, r := some "N123" }
     30 { demoAc5 with registration := some "N123" } none (by decide)⟩

/-- The two branches of the longitude-difference conditional agree under
exchange of the endpoints. -/
theorem ifdiff_comm (x y : ℝ) :
    (if x > y then x - y else y - x) = (if y > x then y - x else x - y) := by
  rcases lt_trichotomy x y with h | h | h
  · rw [if_neg (asymm h), if_pos h]
  · subst h
    simp
  · rw [if_pos h, if_neg (asymm h)]

/-- Claim C7: the great-circle distance is symmetric — swapping the start
and end positions of a dropout leaves the computed distance unchanged. -/
theorem claim_C7 (hx1 hx2 : String) (A B : Position) :
    Dropout.great_circle { hex := hx1, start := A, end_ := B } =
      Dropout.great_circle { hex := hx2, start := B, end_ := A } := by
  unfold Dropout.great_circle
  have harg : gcArg A B = gcArg B A := by
    unfold gcArg
    rw [ifdiff_comm (radians A.long) (radians B.long)]
    ring
  rw [harg]

/-- Claim C8: the dot-product argument passed to the inverse cosine is
clamped into [-1, 1], so `Dropout.great_circle` is defined for every pair
of positions and its value lies in the finite interval
[0, radius · π] — no domain error is possible. -/
theorem claim_C8 (hx : String) (A B : Position) :
    -1 ≤ clampUnit (gcArg A B) ∧ clampUnit (gcArg A B) ≤ 1 ∧
    0 ≤ Dropout.great_circle { hex := hx, start := A, end_ := B } ∧
    Dropout.great_circle { hex := hx, start := A, end_ := B } ≤
      MEAN_EARTH_RADIUS_METERS * Real.pi := by
  have hclamp : ∀ x : ℝ, -1 ≤ clampUnit x ∧ clampUnit x ≤ 1 := by
    intro x
    unfold clampUnit
    split_ifs with h1 h2 <;> constructor <;> linarith
  have hR : (0 : ℝ) ≤ MEAN_EARTH_RADIUS_METERS := by
    unfold MEAN_EARTH_RADIUS_METERS
    norm_num
  unfold Dropout.great_circle
  exact ⟨(hclamp _).1, (hclamp _).2,
    mul_nonneg hR (Real.arccos_nonneg _),
    mul_le_mul_of_nonneg_left (Real.arccos_le_pi _) hR⟩

/-- Claim C6: the enum lookup fails exactly on strings outside the twelve
message kinds, and for a fresh aircraft record that passes the staleness
and validity filters, an unknown `type` makes `Position` construction
fail and the `ValueError` propagates through `Flight.__init__` and
`Aircraft.__init__` up to the `World.process_aircraft` caller — the
record is never silently accepted or skipped. -/
theorem claim_C6 :
    (∀ s : String, MessageType.ofString s = none ↔
      s ∉ (["adsb_icao", "adsb_icao_nt", "adsr_icao", "tisb_icao", "adsc",
            "mlat", "other", "mode_s", "adsb_other", "adsr_other",
            "tisb_other", "tisb_trackfile"] : List String)) ∧
    (∀ (w : World) (u : Update) (tm : ℚ) (hx : String) (sn : ℚ) (s : String),
      u.hex = some hx → u.lastPosition.getD false = false →
      u.seen = some sn → sn < LAST_POS_THRESHOLD →
      lookupKey hx w.aircraft = none →
      qFalsy u.lat = false → qFalsy u.lon = false →
      u.type = some s → MessageType.ofString s = none →
      w.process_aircraft u tm = .error .valueError) := by
  constructor
  · intro s
    constructor
    · intro h hmem
      simp only [List.mem_cons, List.not_mem_nil, or_false] at hmem
      rcases hmem with rfl | rfl | rfl | rfl | rfl | rfl | rfl | rfl | rfl | rfl | rfl | rfl <;>
        exact absurd h (by decide)
    · intro hmem
      simp only [List.mem_cons, List.not_mem_nil, or_false, not_or] at hmem
      obtain ⟨n1, n2, n3, n4, n5, n6, n7, n8, n9, n10, n11, n12⟩ := hmem
      unfold MessageType.ofString
      rw [if_neg n1, if_neg n2, if_neg n3, if_neg n4, if_neg n5, if_neg n6,
          if_neg n7, if_neg n8, if_neg n9, if_neg n10, if_neg n11, if_neg n12]
  · intro w u tm hx sn s hhex hlp hseen hsn hlook hlat hlon htype hof
    obtain ⟨la, hla, hla0⟩ := qFalsy_eq_false hlat
    obtain ⟨lo, hlo, hlo0⟩ := qFalsy_eq_false hlon
    unfold World.process_aircraft Aircraft.init Flight.init Flight.process_update
      Position.make
    simp [hhex, hlp, hseen, hlook, hlat, hlon, hla, hlo, htype, hof, not_le.mpr hsn,
      qFalsy, hla0, hlo0]

/-- Witness for C6: the record whose type string is `bogus` aborts
processing of a fresh aircraft with the value error. -/
theorem claim_C6_witness :
    MessageType.ofString "bogus" = none ∧
    World.process_aircraft World.empty { demoUpdate with type := some "bogus" } 0 =
      .error .valueError :=
  ⟨(claim_C6.1 "bogus").mpr (by decide),
   claim_C6.2 World.empty { demoUpdate with type := some "bogus" } 0 "abc123" 0
     "bogus" rfl rfl rfl (by decide) rfl rfl rfl rfl rfl⟩

/-- A successful `Flight.process_update` returns a dropout exactly when
the update closes a within-flight valid-position pair with gap at or
above the threshold. -/
theorem flight_step_isSome {f : Flight} {u : Update} {tm : ℚ} {f2 : Flight}
    {d : Option Dropout} (h : f.process_update u tm = .ok (f2, d)) :
    d.isSome = flightGap f u tm := by
  unfold Flight.process_update at h
  unfold flightGap
  by_cases hv : (qFalsy u.lat || qFalsy u.lon) = true
  · rw [if_pos hv] at h
    cases h
    rcases Bool.or_eq_true_iff.mp hv with h1 | h1 <;> simp [h1]
  · rw [if_neg hv] at h
    simp only [Bool.or_eq_true, not_or, Bool.not_eq_true] at hv
    obtain ⟨h1, h2⟩ := hv
    cases hm : Position.make u tm with
    | error e => simp [hm] at h
    | ok p =>
      simp only [hm] at h
      cases hlp : f.last_position with
      | none =>
        simp only [hlp] at h ⊢
        cases h
        simp [h1, h2]
      | some prev =>
        simp only [hlp] at h ⊢
        by_cases hge : tm - prev.time ≥ LAST_POS_THRESHOLD
        · rw [if_pos hge] at h
          cases hhx : u.hex with
          | none => simp [hhx] at h
          | some hx =>
            simp only [hhx] at h
            cases h
            simp [h1, h2, hge]
        · rw [if_neg hge] at h
          cases h
          simp [h1, h2, hge]

/-- A successful `Aircraft.process_update` returns a dropout exactly when
no callsign change happened and the forwarded update closes a
threshold-exceeding pair in the current flight. -/
theorem aircraft_step_isSome {a : Aircraft} {u : Update} {tm : ℚ} {a2 : Aircraft}
    {d : Option Dropout} (h : a.process_update u tm = .ok (a2, d)) :
    d.isSome =
      (decide (u.flight.getD a.current_flight = a.current_flight) &&
        flightGap a.flight u tm) := by
  unfold Aircraft.process_update at h
  by_cases hc : a.current_flight ≠ u.flight.getD a.current_flight
  · rw [if_pos hc] at h
    cases hi : Flight.init u tm with
    | error e => rw [hi] at h; exact absurd h (by simp)
    | ok f =>
      rw [hi] at h
      cases h
      have : ¬(u.flight.getD a.current_flight = a.current_flight) := fun hh => hc hh.symm
      simp [this]
  · rw [if_neg hc] at h
    push_neg at hc
    cases hp : a.flight.process_update u tm with
    | error e => rw [hp] at h; exact absurd h (by simp)
    | ok fd =>
      obtain ⟨f2, d2⟩ := fd
      rw [hp] at h
      cases h
      simp [hc.symm, flight_step_isSome hp]

/-- One step of `World.process_aircraft` grows the dropout log by exactly
the spec-side indicator `specGapHit`. -/
theorem world_step_dropouts {w : World} {u : Update} {tm : ℚ} {w2 : World}
    (h : w.process_aircraft u tm = .ok w2) :
    w2.dropouts.length = w.dropouts.length + (if specGapHit w u tm then 1 else 0) := by
  unfold World.process_aircraft at h
  unfold specGapHit
  cases hhex : u.hex with
  | none => simp [hhex] at h
  | some hx =>
    simp only [hhex] at h ⊢
    by_cases hlp : u.lastPosition.getD false = true
    · rw [if_pos hlp] at h
      cases h
      simp [hlp]
    · rw [if_neg hlp] at h
      cases hseen : u.seen with
      | none => simp [hseen] at h
      | some s =>
        simp only [hseen] at h ⊢
        by_cases hge : s ≥ LAST_POS_THRESHOLD
        · rw [if_pos hge] at h
          cases h
          simp [hlp, hge]
        · rw [if_neg hge] at h
          cases hl : lookupKey hx w.aircraft with
          | none =>
            simp only [hl] at h ⊢
            cases hi : Aircraft.init u tm with
            | error e => simp [hi] at h
            | ok a =>
              simp only [hi] at h
              cases h
              simp [hlp, hge]
          | some a =>
            simp only [hl] at h ⊢
            cases hp : a.process_update u tm with
            | error e => simp [hp] at h
            | ok ad =>
              obtain ⟨a2, d⟩ := ad
              simp only [hp] at h
              cases h
              have hd := aircraft_step_isSome hp
              simp only [List.length_append]
              rw [if_neg hlp, if_neg hge]
              congr 1
              rw [← hd]
              cases d <;> simp

/-- Over a whole delivered sequence, the final dropout count is the
initial count plus the spec-side number of within-flight
threshold-exceeding pairs. -/
theorem runWorld_dropouts (steps : List (Update × ℚ)) (w wf : World)
    (h : runWorld w steps = .ok wf) :
    wf.dropouts.length = w.dropouts.length + specGapCount w steps := by
  induction steps generalizing w with
  | nil =>
    unfold runWorld at h
    cases h
    simp [specGapCount]
  | cons st rest ih =>
    obtain ⟨u, tm⟩ := st
    unfold runWorld at h
    unfold specGapCount
    cases hp : w.process_aircraft u tm with
    | error e => simp [hp] at h
    | ok w2 =>
      simp only [hp] at h ⊢
      have h1 := world_step_dropouts hp
      have h2 := ih w2 h
      omega

/-- Claim C1: for every update sequence delivered in non-decreasing
observation-time order that processes without error, the final length of
`World.dropouts` equals the number of consecutive valid-position pairs
accepted within a single Flight whose time gap is at least the 60-second
threshold (`specGapCount`); a gap whose endpoints fall in different
Flights — a callsign change — never contributes. -/
theorem claim_C1 (steps : List (Update × ℚ)) (w0 wf : World)
    (horder : List.Chain' (fun a b : Update × ℚ => a.2 ≤ b.2) steps)
    (hrun : runWorld w0 steps = .ok wf) :
    wf.dropouts.length = w0.dropouts.length + specGapCount w0 steps :=
  runWorld_dropouts steps w0 wf hrun

/-- Witness for C1: the two-record run with a 90-second gap ends with
exactly one dropout, matching the spec-side count. -/
theorem claim_C1_witness :
    List.Chain' (fun a b : Update × ℚ => a.2 ≤ b.2) demoSteps ∧
    runWorld World.empty demoSteps = .ok demoFinal ∧
    demoFinal.dropouts.length =
      World.empty.dropouts.length + specGapCount World.empty demoSteps :=
  ⟨by norm_num [demoSteps, List.chain'_cons, List.chain'_singleton],
   by with_unfolding_all decide,
   claim_C1 demoSteps World.empty demoFinal
     (by norm_num [demoSteps, List.chain'_cons, List.chain'_singleton])
     (by with_unfolding_all decide)⟩

end Gaps
